import Mathlib

/- Shallow embedding of the tixbuster candidate-testing engine
   (src/tester.py: VoucherTester, and the CLI call site in main.py).
   Pure string and list helpers mirror the Python primitives the code uses
   (str.lower, substring membership via the in operator, str.split);
   network traffic is modelled by an explicit environment describing what
   each HTTP call returns or raises. -/

namespace Tixbuster

/-- ASCII lowercasing of one character, the behaviour of Python str.lower
on the ASCII range (all strings the engine matches against are ASCII). -/
def lowerChar (c : Char) : Char :=
  if 65 ≤ c.toNat ∧ c.toNat ≤ 90 then Char.ofNat (c.toNat + 32) else c

/-- Contiguous-sublist test on character lists: Python `pat in s`. -/
def isSubSeq (pat : List Char) : List Char → Bool
  | [] => pat.isEmpty
  | c :: t => pat.isPrefixOf (c :: t) || isSubSeq pat t

/-- Python `pat in s` for strings (case-sensitive containment). -/
def strContains (s pat : String) : Bool :=
  isSubSeq pat.data s.data

/-- Python `pat in s.lower()` where `pat` is a lowercase literal:
the case-insensitive containment used by the classifier. -/
def msgContains (s pat : String) : Bool :=
  isSubSeq pat.data (s.data.map lowerChar)

/-- Characters after the first occurrence of `sep` (empty if no occurrence):
the tail that Python `s.split(sep)` would start its second chunk from. -/
def afterFirst (sep : List Char) : List Char → List Char
  | [] => []
  | c :: t => if sep.isPrefixOf (c :: t) then (c :: t).drop sep.length else afterFirst sep t

/-- Characters before the first occurrence of `sep` (the whole list if no
occurrence): Python `s.split(sep)[0]`. -/
def beforeFirst (sep : List Char) : List Char → List Char
  | [] => []
  | c :: t => if sep.isPrefixOf (c :: t) then [] else c :: beforeFirst sep t

/-- The outcome tags returned by `VoucherTester.test_voucher` (tester.py).
The spec names RATE_LIMITED RateLimited, ERROR and EXCEPTION NetworkError
(with the status code resp. the error description as detail), and
NO_RESPONSE NoAsyncHandle. -/
inductive Status where
  | SUCCESS
  | EXPIRED
  | NOTFOUND
  | INVALID
  | USED
  | LIMITED
  | UNKNOWN
  | RATE_LIMITED
  | NO_RESPONSE
  | ERROR
  | EXCEPTION
deriving DecidableEq, Repr

/-- JSON body of the poll response: the `success` flag (truthiness of
`poll_result.get('success')`) and the `message` field
(`poll_result.get('message', '')`, absent modelled as `""`). -/
structure PollJson where
  success : Bool
  message : String
deriving DecidableEq, Repr

/-- The second component of the pair `test_voucher` returns. -/
inductive Detail where
  | none
  | msg (s : String)
  | statusCode (n : Nat)
  | pollResult (p : PollJson)
  | asyncId (s : String)
deriving DecidableEq, Repr

/-- JSON body of the submit response: optional `redirect` and `async_id`
string fields (a field that is absent, or present with a non-string/falsy
non-string value, is `Option.none`). -/
structure SubmitJson where
  redirect : Option String
  async_id : Option String
deriving DecidableEq, Repr

/-- The submit-phase HTTP response: status code, the X-RateLimit-Remaining
header parsed as an integer when present, whether a cf-ray header is
present, the body text, and the parsed JSON body (`Except.error e` models
`response.json()` raising with description `e`). -/
structure SubmitResponse where
  status_code : Nat
  rate_limit_remaining : Option Int
  has_cf_ray : Bool
  text : String
  json : Except String SubmitJson

/-- The poll-phase HTTP response. -/
structure PollResponse where
  status_code : Nat
  json : Except String PollJson

/-- Network behaviour for one candidate attempt: what the submit POST and
the poll GET return, `Except.error e` modelling a transport-level
exception (timeout, connection error) with description `e`. -/
structure NetEnv where
  submit : Except String SubmitResponse
  poll : Except String PollResponse

/-- Result of one `test_voucher` call together with how many submit POSTs
and poll GETs the call issued. -/
structure AttemptTrace where
  status : Status
  detail : Detail
  submits : Nat
  polls : Nat

/-- `VoucherTester.check_rate_limit` (tester.py lines 50-71): 429, or the
X-RateLimit-Remaining header below 5, or a 403 / cf-ray response whose
body mentions a challenge. -/
def check_rate_limit (r : SubmitResponse) : Bool :=
  if r.status_code = 429 then true
  else if (match r.rate_limit_remaining with
           | some n => decide (n < 5)
           | Option.none => false) then true
  else if (r.status_code = 403 || r.has_cf_ray) && msgContains r.text "challenge" then true
  else false

/-- Extraction of the async handle (tester.py lines 113-117): from the
`redirect` URL when it contains "async_id=" — Python
`result['redirect'].split('async_id=')[1].split('&')[0]`, i.e. the text
strictly between the first occurrence of "async_id=" and the next
occurrence of "async_id=" or "&" — otherwise the direct `async_id`
field. -/
def extract_async_id (j : SubmitJson) : Option String :=
  match j.redirect with
  | some r =>
    if strContains r "async_id=" then
      some (String.mk (beforeFirst "&".data
        (beforeFirst "async_id=".data (afterFirst "async_id=".data r.data))))
    else j.async_id
  | Option.none => j.async_id

/-- The classification of the poll JSON (tester.py lines 140-171): ordered
rules, first match wins, case-insensitive substring matching. -/
def classify_poll (p : PollJson) (aid : String) : Status × Detail :=
  if p.success then (.SUCCESS, .pollResult p)
  else if msgContains p.message "expired" then (.EXPIRED, .asyncId aid)
  else if msgContains p.message "not known in our database" then (.NOTFOUND, .msg p.message)
  else if msgContains p.message "invalid" || msgContains p.message "not found" then
    (.INVALID, .msg p.message)
  else if msgContains p.message "already" || msgContains p.message "used"
       || msgContains p.message "redeemed" then (.USED, .msg p.message)
  else if msgContains p.message "limit" || msgContains p.message "maximum" then
    (.LIMITED, .msg p.message)
  else (.UNKNOWN, .msg p.message)

/-- `VoucherTester.test_voucher` (tester.py lines 73-182) over a network
environment. The whole body sits in one try/except: a raised exception at
any point returns ('EXCEPTION', str(e)). The trace records how many
submit POSTs and poll GETs were issued. -/
def test_voucher (env : NetEnv) : AttemptTrace :=
  match env.submit with
  | .error e => ⟨.EXCEPTION, .msg e, 1, 0⟩
  | .ok r =>
    if check_rate_limit r then ⟨.RATE_LIMITED, .none, 1, 0⟩
    else if r.status_code = 200 then
      match r.json with
      | .error e => ⟨.EXCEPTION, .msg e, 1, 0⟩
      | .ok j =>
        match extract_async_id j with
        | some aid =>
          if aid.data.isEmpty then ⟨.NO_RESPONSE, .none, 1, 0⟩
          else
            match env.poll with
            | .error e => ⟨.EXCEPTION, .msg e, 1, 1⟩
            | .ok pr =>
              if pr.status_code = 200 then
                match pr.json with
                | .error e => ⟨.EXCEPTION, .msg e, 1, 1⟩
                | .ok pj =>
                  let sd := classify_poll pj aid
                  ⟨sd.1, sd.2, 1, 1⟩
              else ⟨.NO_RESPONSE, .none, 1, 1⟩
        | Option.none => ⟨.NO_RESPONSE, .none, 1, 0⟩
    else ⟨.ERROR, .statusCode r.status_code, 1, 0⟩

/-- The base delay of `adaptive_delay` (tester.py lines 33-40), before the
division by the thread count and before the jitter. -/
def base_delay (count : Nat) : ℚ :=
  let d : ℚ := 1/2
  let d := if count > 100 then 1 else d
  let d := if count > 200 then 2 else d
  d

/-- The value `adaptive_delay` returns when the (incremented) shared
counter reads `count`: base delay divided by the thread count, plus the
jitter drawn by random.uniform(0, 0.3) for this call. -/
def adaptive_delay_value (threads count : Nat) (jitter : ℚ) : ℚ :=
  base_delay count / (threads : ℚ) + jitter

/-- One `adaptive_delay` call (tester.py lines 27-48): increments the
shared request counter under the lock, then computes the delay from the
incremented value. -/
def adaptive_delay_step (threads count : Nat) (jitter : ℚ) : Nat × ℚ :=
  (count + 1, adaptive_delay_value threads (count + 1) jitter)

/-- The mutable state of a `VoucherTester` instance that the engine reads
or writes (base_url, verbose and start_time only affect printing and are
omitted). `tested_codes` is the dedup set, kept as a list without
duplicates in insertion order. -/
structure EngineState where
  threads : Nat
  request_count : Nat
  rate_limited : Bool
  tested_codes : List String
deriving DecidableEq, Repr

/-- The results dict built by the batch runners: six outcome buckets plus
the tested counter. -/
structure BatchResults where
  SUCCESS : List String
  EXPIRED : List String
  USED : List String
  LIMITED : List String
  UNKNOWN : List String
  NOTFOUND : List String
  tested : Nat
deriving DecidableEq, Repr

/-- The fresh results dict both batch runners start from. -/
def empty_results : BatchResults :=
  ⟨[], [], [], [], [], [], 0⟩

/-- `set.add`: append the code to the dedup list unless already present. -/
def add_tested (l : List String) (c : String) : List String :=
  if c ∈ l then l else l ++ [c]

/-- `VoucherTester._update_results` (tester.py lines 184-211): always
increments `tested` and adds the code to the dedup set; appends the code
to a bucket only for the six statuses that have a branch — INVALID,
RATE_LIMITED, NO_RESPONSE, ERROR and EXCEPTION fall through with no
append. -/
def update_results (s : EngineState) (res : BatchResults) (code : String) (st : Status) :
    EngineState × BatchResults :=
  let s' := { s with tested_codes := add_tested s.tested_codes code }
  let r' := { res with tested := res.tested + 1 }
  match st with
  | .SUCCESS => (s', { r' with SUCCESS := r'.SUCCESS ++ [code] })
  | .EXPIRED => (s', { r' with EXPIRED := r'.EXPIRED ++ [code] })
  | .USED => (s', { r' with USED := r'.USED ++ [code] })
  | .LIMITED => (s', { r' with LIMITED := r'.LIMITED ++ [code] })
  | .UNKNOWN => (s', { r' with UNKNOWN := r'.UNKNOWN ++ [code] })
  | .NOTFOUND => (s', { r' with NOTFOUND := r'.NOTFOUND ++ [code] })
  | _ => (s', r')

/-- Accumulated state of a batch run: engine state, results dict, the
candidates actually handed to `test_voucher` in order, and every
`time.sleep(adaptive_delay())` duration in order. -/
structure BatchTrace where
  state : EngineState
  results : BatchResults
  attempts : List String
  sleeps : List ℚ

/-- One iteration of the `_test_batch_single` loop (tester.py lines
232-256) for one candidate, over the per-candidate network environment
`envOf` and the per-request jitter stream `jit`: skip if already in the
dedup set; otherwise run `test_voucher` (which itself calls
`adaptive_delay` and sleeps once just before the poll GET, iff the
attempt reaches the poll phase), record via `_update_results` (a
RATE_LIMITED status is additionally only printed), then sleep the
trailing `adaptive_delay`. -/
def batch_step (envOf : String → NetEnv) (jit : Nat → ℚ) (t : BatchTrace) (code : String) :
    BatchTrace :=
  if code ∈ t.state.tested_codes then t
  else
    let tr := test_voucher (envOf code)
    let inner : List ℚ :=
      if tr.polls = 1 then
        [adaptive_delay_value t.state.threads (t.state.request_count + 1)
          (jit (t.state.request_count + 1))]
      else []
    let c1 := if tr.polls = 1 then t.state.request_count + 1 else t.state.request_count
    let st := { t.state with
                request_count := c1,
                rate_limited := t.state.rate_limited || decide (tr.status = .RATE_LIMITED) }
    let sr := update_results st t.results code tr.status
    let tail := adaptive_delay_value sr.1.threads (sr.1.request_count + 1)
      (jit (sr.1.request_count + 1))
    let st2 := { sr.1 with request_count := sr.1.request_count + 1 }
    ⟨st2, sr.2, t.attempts ++ [code], t.sleeps ++ inner ++ [tail]⟩

/-- The `_test_batch_single` loop over the remaining candidates. -/
def run_single (envOf : String → NetEnv) (jit : Nat → ℚ) :
    List String → BatchTrace → BatchTrace
  | [], t => t
  | code :: rest, t => run_single envOf jit rest (batch_step envOf jit t code)

/-- `VoucherTester._test_batch_single` (tester.py lines 220-258). -/
def test_batch_single (envOf : String → NetEnv) (jit : Nat → ℚ) (codes : List String)
    (s : EngineState) : BatchTrace :=
  run_single envOf jit codes ⟨s, empty_results, [], []⟩

/-- Processing of one completed future in `_test_batch_threaded` (tester.py
lines 301-319) together with the worker's own `test_voucher` execution:
no dedup check here (the filter ran once, up front), no trailing sleep
(the threaded loop has none); the internal pre-poll `adaptive_delay`
sleep still occurs inside the worker. -/
def threaded_step (envOf : String → NetEnv) (jit : Nat → ℚ) (t : BatchTrace) (code : String) :
    BatchTrace :=
  let tr := test_voucher (envOf code)
  let inner : List ℚ :=
    if tr.polls = 1 then
      [adaptive_delay_value t.state.threads (t.state.request_count + 1)
        (jit (t.state.request_count + 1))]
    else []
  let c1 := if tr.polls = 1 then t.state.request_count + 1 else t.state.request_count
  let st := { t.state with
              request_count := c1,
              rate_limited := t.state.rate_limited || decide (tr.status = .RATE_LIMITED) }
  let sr := update_results st t.results code tr.status
  ⟨sr.1, sr.2, t.attempts ++ [code], t.sleeps ++ inner⟩

/-- The threaded result-collection loop. Completion order of the pool is
nondeterministic; it is modelled as submission order, which fixes one
admissible interleaving (the counting and bucket-membership facts proved
below are order-insensitive). -/
def run_threaded (envOf : String → NetEnv) (jit : Nat → ℚ) :
    List String → BatchTrace → BatchTrace
  | [], t => t
  | code :: rest, t => run_threaded envOf jit rest (threaded_step envOf jit t code)

/-- `VoucherTester._test_batch_threaded` (tester.py lines 260-329): filter
the input once against the dedup set as of batch start — duplicates
inside `codes` survive the filter — then submit every surviving
candidate to the pool. -/
def test_batch_threaded (envOf : String → NetEnv) (jit : Nat → ℚ) (codes : List String)
    (s : EngineState) : BatchTrace :=
  run_threaded envOf jit (codes.filter (fun c => decide (c ∉ s.tested_codes)))
    ⟨s, empty_results, [], []⟩

/-- `VoucherTester.test_batch` (tester.py lines 213-218). -/
def test_batch (envOf : String → NetEnv) (jit : Nat → ℚ) (codes : List String)
    (s : EngineState) : BatchTrace :=
  if s.threads > 1 then test_batch_threaded envOf jit codes s
  else test_batch_single envOf jit codes s

/-- The candidates of `codes` that a single-worker run starting with dedup
set `seen` actually attempts, in order: first occurrences of codes not in
`seen`. -/
def new_codes : List String → List String → List String
  | [], _ => []
  | c :: rest, seen =>
    if c ∈ seen then new_codes rest seen else c :: new_codes rest (seen ++ [c])

/-- Parameter names accepted by `VoucherTester.__init__` (tester.py line
17), besides self. -/
def voucherTesterInitParams : List String :=
  ["base_url", "verbose", "threads"]

/-- Keyword-argument names passed to the `VoucherTester(...)` call in
`cmd_test` (main.py line 130). -/
def cmdTestTesterKwargs : List String :=
  ["base_url", "verbose", "threads", "no_brakes"]

/-- Python call binding: keywords that match no parameter name. A call
raises TypeError (unexpected keyword argument) iff this list is
nonempty. -/
def unexpectedKwargs (params kwargs : List String) : List String :=
  kwargs.filter (fun k => decide (k ∉ params))

/-- Observable milestones of `cmd_test` after credential validation. -/
inductive CmdTestEvent where
  | constructedTester
  | ranBatch
  | typeErrorRaised (k : String)
deriving DecidableEq, Repr

/-- The tail of `cmd_test` (main.py lines 130-138): construct the tester,
then run the batch; an unexpected keyword aborts at the construction, so
the batch never runs. -/
def cmd_test_after_validation : List CmdTestEvent :=
  match unexpectedKwargs voucherTesterInitParams cmdTestTesterKwargs with
  | [] => [.constructedTester, .ranBatch]
  | k :: _ => [.typeErrorRaised k]

/-- The zero jitter stream (random.uniform(0, 0.3) drawing 0 every time). -/
def jitZero : Nat → ℚ := fun _ => 0

/-- A freshly constructed single-worker engine. -/
def freshEngine : EngineState := ⟨1, 0, false, []⟩

/-- A freshly constructed engine with two workers. -/
def dupEngine : EngineState := ⟨2, 0, false, []⟩

/-- A poll response that parses and classifies to nothing special. -/
def pollBlank : PollResponse := ⟨200, .ok ⟨false, ""⟩⟩

/-- An uneventful exchange: clean 200 submit handing out the async handle
x1 directly, clean poll whose message matches no classifier rule. -/
def benignEnv : NetEnv :=
  ⟨.ok ⟨200, Option.none, false, "", .ok ⟨Option.none, some "x1"⟩⟩,
   .ok ⟨200, .ok ⟨false, "mystery"⟩⟩⟩

/-- A submit phase answered with HTTP 429. -/
def rlEnv : NetEnv :=
  ⟨.ok ⟨429, Option.none, false, "", .ok ⟨Option.none, Option.none⟩⟩, .ok pollBlank⟩

/-- A submit phase answered with a plain HTTP 500, no rate-limit marker. -/
def errEnv : NetEnv :=
  ⟨.ok ⟨500, Option.none, false, "server error", .ok ⟨Option.none, Option.none⟩⟩, .ok pollBlank⟩

/-- A 500 submit response carrying a cf-ray header and a challenge body:
none of 429, low remaining-header, or 403-with-marker applies. -/
def cfResp : SubmitResponse :=
  ⟨500, Option.none, true, "checking - challenge", .ok ⟨Option.none, Option.none⟩⟩

/-- The exchange whose submit phase returns `cfResp`. -/
def cfEnv : NetEnv := ⟨.ok cfResp, .ok pollBlank⟩

/-- A clean exchange whose poll message mentions an invalid code. -/
def invalidEnv : NetEnv :=
  ⟨.ok ⟨200, Option.none, false, "", .ok ⟨Option.none, some "x1"⟩⟩,
   .ok ⟨200, .ok ⟨false, "This voucher code is invalid"⟩⟩⟩

/-- A submit POST that raises (connection timeout). -/
def timeoutEnv : NetEnv := ⟨.error "timeout", .ok pollBlank⟩

/-- Candidate AAAA hits the 429, every other candidate sails through. -/
def envRLfirst : String → NetEnv := fun c => if c = "AAAA" then rlEnv else benignEnv

/-- Candidate AAAA hits the plain 500, every other candidate sails through. -/
def envERRfirst : String → NetEnv := fun c => if c = "AAAA" then errEnv else benignEnv

theorem update_results_fst (s : EngineState) (res : BatchResults) (code : String)
    (st : Status) :
    (update_results s res code st).1
      = { s with tested_codes := add_tested s.tested_codes code } := by
  cases st <;> rfl

theorem update_results_tested (s : EngineState) (res : BatchResults) (code : String)
    (st : Status) :
    (update_results s res code st).2.tested = res.tested + 1 := by
  cases st <;> rfl

theorem update_results_buckets (s : EngineState) (res : BatchResults) (code : String)
    (st : Status) :
    (update_results s res code st).2.SUCCESS
      = res.SUCCESS ++ (if st = .SUCCESS then [code] else [])
    ∧ (update_results s res code st).2.EXPIRED
      = res.EXPIRED ++ (if st = .EXPIRED then [code] else [])
    ∧ (update_results s res code st).2.USED
      = res.USED ++ (if st = .USED then [code] else [])
    ∧ (update_results s res code st).2.LIMITED
      = res.LIMITED ++ (if st = .LIMITED then [code] else [])
    ∧ (update_results s res code st).2.UNKNOWN
      = res.UNKNOWN ++ (if st = .UNKNOWN then [code] else [])
    ∧ (update_results s res code st).2.NOTFOUND
      = res.NOTFOUND ++ (if st = .NOTFOUND then [code] else []) := by
  cases st <;> simp [update_results]

theorem batch_step_mem (envOf : String → NetEnv) (jit : Nat → ℚ) (t : BatchTrace)
    (code : String) (hc : code ∈ t.state.tested_codes) :
    batch_step envOf jit t code = t := by
  simp [batch_step, hc]

theorem batch_step_not_mem (envOf : String → NetEnv) (jit : Nat → ℚ) (t : BatchTrace)
    (code : String) (hc : code ∉ t.state.tested_codes) :
    (batch_step envOf jit t code).attempts = t.attempts ++ [code]
    ∧ (batch_step envOf jit t code).state.tested_codes = t.state.tested_codes ++ [code]
    ∧ (batch_step envOf jit t code).state.threads = t.state.threads
    ∧ (batch_step envOf jit t code).results.tested = t.results.tested + 1
    ∧ (batch_step envOf jit t code).results.SUCCESS
      = t.results.SUCCESS
        ++ (if (test_voucher (envOf code)).status = .SUCCESS then [code] else [])
    ∧ (batch_step envOf jit t code).results.EXPIRED
      = t.results.EXPIRED
        ++ (if (test_voucher (envOf code)).status = .EXPIRED then [code] else [])
    ∧ (batch_step envOf jit t code).results.USED
      = t.results.USED
        ++ (if (test_voucher (envOf code)).status = .USED then [code] else [])
    ∧ (batch_step envOf jit t code).results.LIMITED
      = t.results.LIMITED
        ++ (if (test_voucher (envOf code)).status = .LIMITED then [code] else [])
    ∧ (batch_step envOf jit t code).results.UNKNOWN
      = t.results.UNKNOWN
        ++ (if (test_voucher (envOf code)).status = .UNKNOWN then [code] else [])
    ∧ (batch_step envOf jit t code).results.NOTFOUND
      = t.results.NOTFOUND
        ++ (if (test_voucher (envOf code)).status = .NOTFOUND then [code] else []) := by
  have hb := update_results_buckets
    { t.state with
      request_count := if (test_voucher (envOf code)).polls = 1
        then t.state.request_count + 1 else t.state.request_count,
      rate_limited := t.state.rate_limited
        || decide ((test_voucher (envOf code)).status = .RATE_LIMITED) }
    t.results code (test_voucher (envOf code)).status
  refine ⟨?_, ?_, ?_, ?_, ?_, ?_, ?_, ?_, ?_, ?_⟩ <;>
    simp [batch_step, hc, update_results_fst, update_results_tested, add_tested,
      hb.1, hb.2.1, hb.2.2.1, hb.2.2.2.1, hb.2.2.2.2.1, hb.2.2.2.2.2]

theorem mem_new_codes_not_seen :
    ∀ (codes seen : List String) (c : String), c ∈ new_codes codes seen → c ∉ seen := by
  intro codes
  induction codes with
  | nil => intro seen c h; simp [new_codes] at h
  | cons c0 rest ih =>
    intro seen c h
    by_cases h0 : c0 ∈ seen
    · rw [new_codes, if_pos h0] at h
      exact ih seen c h
    · rw [new_codes, if_neg h0] at h
      rcases List.mem_cons.mp h with rfl | hm
      · exact h0
      · intro hs
        exact ih (seen ++ [c0]) c hm (List.mem_append_left _ hs)

theorem new_codes_nodup :
    ∀ (codes seen : List String), (new_codes codes seen).Nodup := by
  intro codes
  induction codes with
  | nil => intro seen; simp [new_codes]
  | cons c0 rest ih =>
    intro seen
    by_cases h0 : c0 ∈ seen
    · rw [new_codes, if_pos h0]; exact ih seen
    · rw [new_codes, if_neg h0]
      refine List.nodup_cons.mpr ⟨?_, ih (seen ++ [c0])⟩
      intro hmem
      exact mem_new_codes_not_seen rest (seen ++ [c0]) c0 hmem
        (List.mem_append_right _ (List.mem_singleton.mpr rfl))

theorem run_single_spec (envOf : String → NetEnv) (jit : Nat → ℚ) :
    ∀ (codes : List String) (t : BatchTrace),
    (run_single envOf jit codes t).attempts
      = t.attempts ++ new_codes codes t.state.tested_codes
    ∧ (run_single envOf jit codes t).state.tested_codes
      = t.state.tested_codes ++ new_codes codes t.state.tested_codes
    ∧ (run_single envOf jit codes t).results.tested
      = t.results.tested + (new_codes codes t.state.tested_codes).length
    ∧ (run_single envOf jit codes t).state.threads = t.state.threads
    ∧ (run_single envOf jit codes t).results.SUCCESS
      = t.results.SUCCESS ++ (new_codes codes t.state.tested_codes).filter
          (fun c => decide ((test_voucher (envOf c)).status = .SUCCESS))
    ∧ (run_single envOf jit codes t).results.EXPIRED
      = t.results.EXPIRED ++ (new_codes codes t.state.tested_codes).filter
          (fun c => decide ((test_voucher (envOf c)).status = .EXPIRED))
    ∧ (run_single envOf jit codes t).results.USED
      = t.results.USED ++ (new_codes codes t.state.tested_codes).filter
          (fun c => decide ((test_voucher (envOf c)).status = .USED))
    ∧ (run_single envOf jit codes t).results.LIMITED
      = t.results.LIMITED ++ (new_codes codes t.state.tested_codes).filter
          (fun c => decide ((test_voucher (envOf c)).status = .LIMITED))
    ∧ (run_single envOf jit codes t).results.UNKNOWN
      = t.results.UNKNOWN ++ (new_codes codes t.state.tested_codes).filter
          (fun c => decide ((test_voucher (envOf c)).status = .UNKNOWN))
    ∧ (run_single envOf jit codes t).results.NOTFOUND
      = t.results.NOTFOUND ++ (new_codes codes t.state.tested_codes).filter
          (fun c => decide ((test_voucher (envOf c)).status = .NOTFOUND)) := by
  intro codes
  induction codes with
  | nil => intro t; simp [run_single, new_codes]
  | cons c0 rest ih =>
    intro t
    by_cases h0 : c0 ∈ t.state.tested_codes
    · rw [run_single, batch_step_mem envOf jit t c0 h0]
      have := ih t
      simpa [new_codes, h0] using this
    · obtain ⟨ha, hd, hth, hn, h1, h2, h3, h4, h5, h6⟩ :=
        batch_step_not_mem envOf jit t c0 h0
      have hrec := ih (batch_step envOf jit t c0)
      rw [run_single]
      rw [ha, hd, hth, hn, h1, h2, h3, h4, h5, h6] at hrec
      simp only [new_codes, if_neg h0]
      obtain ⟨ga, gd, gn, gth, g1, g2, g3, g4, g5, g6⟩ := hrec
      refine ⟨?_, ?_, ?_, ?_, ?_, ?_, ?_, ?_, ?_, ?_⟩
      · rw [ga]; simp
      · rw [gd]; simp
      · rw [gn]; simp only [List.length_cons]; omega
      · exact gth
      · rw [g1, List.filter_cons]
        by_cases hs : (test_voucher (envOf c0)).status = Status.SUCCESS <;> simp [hs]
      · rw [g2, List.filter_cons]
        by_cases hs : (test_voucher (envOf c0)).status = Status.EXPIRED <;> simp [hs]
      · rw [g3, List.filter_cons]
        by_cases hs : (test_voucher (envOf c0)).status = Status.USED <;> simp [hs]
      · rw [g4, List.filter_cons]
        by_cases hs : (test_voucher (envOf c0)).status = Status.LIMITED <;> simp [hs]
      · rw [g5, List.filter_cons]
        by_cases hs : (test_voucher (envOf c0)).status = Status.UNKNOWN <;> simp [hs]
      · rw [g6, List.filter_cons]
        by_cases hs : (test_voucher (envOf c0)).status = Status.NOTFOUND <;> simp [hs]

theorem threaded_step_spec (envOf : String → NetEnv) (jit : Nat → ℚ) (t : BatchTrace)
    (code : String) :
    (threaded_step envOf jit t code).attempts = t.attempts ++ [code]
    ∧ (threaded_step envOf jit t code).state.threads = t.state.threads
    ∧ (threaded_step envOf jit t code).results.tested = t.results.tested + 1
    ∧ (threaded_step envOf jit t code).results.UNKNOWN
      = t.results.UNKNOWN
        ++ (if (test_voucher (envOf code)).status = .UNKNOWN then [code] else []) := by
  have hb := update_results_buckets
    { t.state with
      request_count := if (test_voucher (envOf code)).polls = 1
        then t.state.request_count + 1 else t.state.request_count,
      rate_limited := t.state.rate_limited
        || decide ((test_voucher (envOf code)).status = .RATE_LIMITED) }
    t.results code (test_voucher (envOf code)).status
  refine ⟨?_, ?_, ?_, ?_⟩ <;>
    simp [threaded_step, update_results_fst, update_results_tested, hb.2.2.2.2.1]

theorem run_threaded_spec (envOf : String → NetEnv) (jit : Nat → ℚ) :
    ∀ (codes : List String) (t : BatchTrace),
    (run_threaded envOf jit codes t).attempts = t.attempts ++ codes
    ∧ (run_threaded envOf jit codes t).results.tested = t.results.tested + codes.length
    ∧ (run_threaded envOf jit codes t).results.UNKNOWN
      = t.results.UNKNOWN ++ codes.filter
          (fun c => decide ((test_voucher (envOf c)).status = .UNKNOWN)) := by
  intro codes
  induction codes with
  | nil => intro t; simp [run_threaded]
  | cons c0 rest ih =>
    intro t
    obtain ⟨ha, hth, hn, hu⟩ := threaded_step_spec envOf jit t c0
    have hrec := ih (threaded_step envOf jit t c0)
    rw [ha, hn, hu] at hrec
    obtain ⟨ga, gn, gu⟩ := hrec
    rw [run_threaded]
    refine ⟨?_, ?_, ?_⟩
    · rw [ga]; simp
    · rw [gn]; simp only [List.length_cons]; omega
    · rw [gu, List.filter_cons]
      by_cases hs : (test_voucher (envOf c0)).status = Status.UNKNOWN <;> simp [hs]

theorem base_delay_le_two (c : Nat) : base_delay c ≤ 2 := by
  simp only [base_delay]
  split_ifs <;> norm_num

theorem adaptive_delay_value_le (threads c : Nat) (j : ℚ) (ht : 1 ≤ threads)
    (hj0 : 0 ≤ j) (hj : j ≤ 3/10) :
    adaptive_delay_value threads c j ≤ 2 / (threads : ℚ) + 3/10 := by
  have htq : (0 : ℚ) < (threads : ℚ) := by
    exact_mod_cast Nat.pos_of_ne_zero (by omega)
  have h1 : base_delay c / (threads : ℚ) ≤ 2 / (threads : ℚ) :=
    (div_le_div_iff_of_pos_right htq).mpr (base_delay_le_two c)
  calc adaptive_delay_value threads c j
      = base_delay c / (threads : ℚ) + j := rfl
    _ ≤ 2 / (threads : ℚ) + 3/10 := add_le_add h1 hj

theorem run_single_sleeps_bound (envOf : String → NetEnv) (jit : Nat → ℚ)
    (hj : ∀ n, 0 ≤ jit n ∧ jit n ≤ 3/10) :
    ∀ (codes : List String) (t : BatchTrace), 1 ≤ t.state.threads →
    ∀ d ∈ (run_single envOf jit codes t).sleeps,
      d ∈ t.sleeps ∨ d ≤ 2 / (t.state.threads : ℚ) + 3/10 := by
  intro codes
  induction codes with
  | nil => intro t ht d hd; exact Or.inl hd
  | cons c0 rest ih =>
    intro t ht d hd
    rw [run_single] at hd
    by_cases h0 : c0 ∈ t.state.tested_codes
    · rw [batch_step_mem envOf jit t c0 h0] at hd
      exact ih t ht d hd
    · have hth : (batch_step envOf jit t c0).state.threads = t.state.threads :=
        (batch_step_not_mem envOf jit t c0 h0).2.2.1
      have hstep := ih (batch_step envOf jit t c0) (by rw [hth]; exact ht) d hd
      rw [hth] at hstep
      rcases hstep with hmem | hle
      · simp only [batch_step, if_neg h0] at hmem
        rcases List.mem_append.mp hmem with hmem1 | htail
        · rcases List.mem_append.mp hmem1 with hold | hinner
          · exact Or.inl hold
          · right
            rcases em ((test_voucher (envOf c0)).polls = 1) with hp | hp
            · simp only [if_pos hp, List.mem_singleton] at hinner
              subst hinner
              exact adaptive_delay_value_le _ _ _ ht (hj _).1 (hj _).2
            · simp [if_neg hp] at hinner
        · right
          simp only [List.mem_singleton] at htail
          subst htail
          have := update_results_fst
            { t.state with
              request_count := if (test_voucher (envOf c0)).polls = 1
                then t.state.request_count + 1 else t.state.request_count,
              rate_limited := t.state.rate_limited
                || decide ((test_voucher (envOf c0)).status = .RATE_LIMITED) }
            t.results c0 (test_voucher (envOf c0)).status
          rw [this]
          exact adaptive_delay_value_le _ _ _ ht (hj _).1 (hj _).2
      · exact Or.inr hle

theorem update_results_snd_irrel (s s' : EngineState) (res : BatchResults) (code : String)
    (st : Status) :
    (update_results s res code st).2 = (update_results s' res code st).2 := by
  cases st <;> rfl

theorem run_single_flag_blind (envOf : String → NetEnv) (jit : Nat → ℚ) :
    ∀ (codes : List String) (th rc : Nat) (rl rl' : Bool) (tc : List String)
      (res : BatchResults) (att : List String) (sl : List ℚ),
    (run_single envOf jit codes ⟨⟨th, rc, rl, tc⟩, res, att, sl⟩).results
      = (run_single envOf jit codes ⟨⟨th, rc, rl', tc⟩, res, att, sl⟩).results
    ∧ (run_single envOf jit codes ⟨⟨th, rc, rl, tc⟩, res, att, sl⟩).attempts
      = (run_single envOf jit codes ⟨⟨th, rc, rl', tc⟩, res, att, sl⟩).attempts
    ∧ (run_single envOf jit codes ⟨⟨th, rc, rl, tc⟩, res, att, sl⟩).sleeps
      = (run_single envOf jit codes ⟨⟨th, rc, rl', tc⟩, res, att, sl⟩).sleeps
    ∧ (run_single envOf jit codes ⟨⟨th, rc, rl, tc⟩, res, att, sl⟩).state.tested_codes
      = (run_single envOf jit codes ⟨⟨th, rc, rl', tc⟩, res, att, sl⟩).state.tested_codes := by
  intro codes
  induction codes with
  | nil => intros; exact ⟨rfl, rfl, rfl, rfl⟩
  | cons c0 rest ih =>
    intro th rc rl rl' tc res att sl
    rw [run_single, run_single]
    by_cases h0 : c0 ∈ tc
    · rw [batch_step_mem _ _ _ _ h0, batch_step_mem _ _ _ _ h0]
      exact ih th rc rl rl' tc res att sl
    · have hstep : ∀ (b : Bool),
          batch_step envOf jit ⟨⟨th, rc, b, tc⟩, res, att, sl⟩ c0
            = ⟨⟨th, (if (test_voucher (envOf c0)).polls = 1 then rc + 1 else rc) + 1,
                b || decide ((test_voucher (envOf c0)).status = .RATE_LIMITED),
                tc ++ [c0]⟩,
               (update_results
                  ⟨th, if (test_voucher (envOf c0)).polls = 1 then rc + 1 else rc,
                   b || decide ((test_voucher (envOf c0)).status = .RATE_LIMITED), tc⟩
                  res c0 (test_voucher (envOf c0)).status).2,
               att ++ [c0],
               sl ++ (if (test_voucher (envOf c0)).polls = 1
                  then [adaptive_delay_value th (rc + 1) (jit (rc + 1))] else [])
                  ++ [adaptive_delay_value th
                    ((if (test_voucher (envOf c0)).polls = 1 then rc + 1 else rc) + 1)
                    (jit ((if (test_voucher (envOf c0)).polls = 1 then rc + 1 else rc) + 1))]⟩ := by
        intro b
        simp only [batch_step, h0, if_neg, ite_false, update_results_fst, add_tested]
      rw [hstep rl, hstep rl']
      rw [update_results_snd_irrel
        ⟨th, if (test_voucher (envOf c0)).polls = 1 then rc + 1 else rc,
         rl' || decide ((test_voucher (envOf c0)).status = .RATE_LIMITED), tc⟩
        ⟨th, if (test_voucher (envOf c0)).polls = 1 then rc + 1 else rc,
         rl || decide ((test_voucher (envOf c0)).status = .RATE_LIMITED), tc⟩
        res c0 (test_voucher (envOf c0)).status]
      exact ih th _ _ _ (tc ++ [c0]) _ (att ++ [c0]) _

/-- C2: the classifier applies its rules in a fixed order with first match
winning, case-insensitively: a set success flag yields SUCCESS before any
message check; a message containing "expired" (in any case) with no
success flag yields EXPIRED even when later-rule substrings such as
"limit" are present, because no further hypothesis about the message is
needed; an empty message with no success flag yields UNKNOWN. -/
theorem c2_classifier_first_match (p : PollJson) (aid : String) :
    (p.success = true → (classify_poll p aid).1 = .SUCCESS)
    ∧ (p.success = false → msgContains p.message "expired" = true →
        (classify_poll p aid).1 = .EXPIRED)
    ∧ (p.success = false → p.message = "" → (classify_poll p aid).1 = .UNKNOWN) := by
  obtain ⟨s, m⟩ := p
  refine ⟨?_, ?_, ?_⟩
  · intro h
    simp only at h
    simp [classify_poll, h]
  · intro hs hm
    simp only at hs hm
    simp [classify_poll, hs, hm]
  · intro hs hm
    simp only at hs hm
    subst hs; subst hm
    rfl

/-- Witness for C2 at concrete inputs: success flag, the message
"EXPIRED limit" (both the expired and the limit substrings present, in
mixed case), and the empty message. -/
theorem c2_classifier_first_match_witness :
    (classify_poll ⟨true, "whatever"⟩ "a").1 = .SUCCESS
    ∧ (classify_poll ⟨false, "EXPIRED limit"⟩ "a").1 = .EXPIRED
    ∧ (classify_poll ⟨false, ""⟩ "a").1 = .UNKNOWN :=
  ⟨(c2_classifier_first_match ⟨true, "whatever"⟩ "a").1 rfl,
   (c2_classifier_first_match ⟨false, "EXPIRED limit"⟩ "a").2.1 rfl (by decide),
   (c2_classifier_first_match ⟨false, ""⟩ "a").2.2 rfl rfl⟩

/-- C6: with the random jitter term removed, the delay `adaptive_delay`
computes at a given request count with N worker threads is exactly 1/N of
the delay it computes at the same count with a single worker. -/
theorem c6_delay_scales_inversely (count N : Nat) (h : 1 ≤ N) :
    adaptive_delay_value N count 0 = adaptive_delay_value 1 count 0 / (N : ℚ) := by
  simp [adaptive_delay_value]

/-- Witness for C6 at count 150 with 4 workers. -/
theorem c6_delay_scales_inversely_witness :
    1 ≤ 4 ∧ adaptive_delay_value 4 150 0 = adaptive_delay_value 1 150 0 / ((4 : Nat) : ℚ) :=
  ⟨by norm_num, c6_delay_scales_inversely 150 4 (by norm_num)⟩

/-- C7: each `adaptive_delay` call increments the shared request counter,
and the base delay (before jitter and before division by the worker
count) is a step function of that counter: 1/2 for counts up to 100, the
strictly larger 1 once the counter exceeds 100, and the strictly larger
2 once it exceeds 200. -/
theorem c7_base_delay_plateaus :
    (∀ t c j, (adaptive_delay_step t c j).1 = c + 1)
    ∧ (∀ c, c ≤ 100 → base_delay c = 1/2)
    ∧ (∀ c, 100 < c → c ≤ 200 → base_delay c = 1)
    ∧ (∀ c, 200 < c → base_delay c = 2)
    ∧ base_delay 100 < base_delay 101
    ∧ base_delay 200 < base_delay 201 := by
  refine ⟨fun t c j => rfl, ?_, ?_, ?_, by norm_num [base_delay], by norm_num [base_delay]⟩
  · intro c h
    simp only [base_delay]
    rw [if_neg (by omega), if_neg (by omega)]
  · intro c h1 h2
    simp only [base_delay]
    rw [if_neg (by omega), if_pos (by omega)]
  · intro c h
    simp only [base_delay]
    rw [if_pos (by omega)]

/-- Witness for C7 at counts 50, 150 and 250, and one counter step. -/
theorem c7_base_delay_plateaus_witness :
    base_delay 50 = 1/2 ∧ base_delay 150 = 1 ∧ base_delay 250 = 2
    ∧ (adaptive_delay_step 3 7 0).1 = 8 :=
  ⟨c7_base_delay_plateaus.2.1 50 (by norm_num),
   c7_base_delay_plateaus.2.2.1 150 (by norm_num) (by norm_num),
   c7_base_delay_plateaus.2.2.2.1 250 (by norm_num),
   c7_base_delay_plateaus.1 3 7 0⟩

/-- C10: the `cmd_test` CLI path passes the keyword argument no_brakes to
`VoucherTester`, whose constructor accepts only base_url, verbose and
threads, so after credential validation the construction raises
TypeError and the batch run never starts. -/
theorem c10_cli_unexpected_kwarg :
    cmd_test_after_validation = [.typeErrorRaised "no_brakes"]
    ∧ CmdTestEvent.ranBatch ∉ cmd_test_after_validation
    ∧ "no_brakes" ∉ voucherTesterInitParams
    ∧ "no_brakes" ∈ cmdTestTesterKwargs := by
  refine ⟨rfl, by decide, by decide, by decide⟩

/-- C1 (amended): single-worker batches attempt each distinct candidate at
most once over the instance lifetime — the attempt sequence has no
duplicates, skips everything already in the dedup set, and `tested`
grows by exactly one per attempted candidate. In concurrent mode the
dedup filter is applied once, against the dedup set as of batch start,
so previously tested candidates are skipped, but a candidate repeated
within the same input sequence is attempted once per occurrence and
`tested` counts every occurrence. -/
theorem c1_dedup_per_mode (envOf : String → NetEnv) (jit : Nat → ℚ)
    (codes : List String) (s : EngineState) :
    (test_batch_single envOf jit codes s).attempts.Nodup
    ∧ (∀ c ∈ s.tested_codes, c ∉ (test_batch_single envOf jit codes s).attempts)
    ∧ (test_batch_single envOf jit codes s).results.tested
      = (test_batch_single envOf jit codes s).attempts.length
    ∧ (test_batch_threaded envOf jit codes s).attempts
      = codes.filter (fun c => decide (c ∉ s.tested_codes))
    ∧ (test_batch_threaded envOf jit codes s).results.tested
      = (codes.filter (fun c => decide (c ∉ s.tested_codes))).length := by
  have hs := run_single_spec envOf jit codes ⟨s, empty_results, [], []⟩
  have ht := run_threaded_spec envOf jit
    (codes.filter (fun c => decide (c ∉ s.tested_codes))) ⟨s, empty_results, [], []⟩
  refine ⟨?_, ?_, ?_, ?_, ?_⟩
  · have := new_codes_nodup codes s.tested_codes
    simpa [test_batch_single, hs.1] using this
  · intro c hc
    simp only [test_batch_single, hs.1, List.nil_append]
    intro hmem
    exact mem_new_codes_not_seen codes s.tested_codes c hmem hc
  · simp only [test_batch_single]
    rw [hs.2.2.1, hs.1]
    simp [empty_results]
  · simp only [test_batch_threaded]
    rw [ht.1]
    simp
  · simp only [test_batch_threaded]
    rw [ht.2.1]
    simp [empty_results]

/-- C1 witness: a candidate already in the dedup set is not attempted by a
later single-worker batch. -/
theorem c1_dedup_per_mode_witness :
    "ZZZZ" ∈ (⟨1, 0, false, ["ZZZZ"]⟩ : EngineState).tested_codes
    ∧ "ZZZZ" ∉ (test_batch_single (fun _ => benignEnv) jitZero ["ZZZZ", "AAAA"]
        ⟨1, 0, false, ["ZZZZ"]⟩).attempts :=
  ⟨by decide,
   (c1_dedup_per_mode (fun _ => benignEnv) jitZero ["ZZZZ", "AAAA"]
      ⟨1, 0, false, ["ZZZZ"]⟩).2.1 "ZZZZ" (by decide)⟩

/-- C1 counterexample: on a fresh two-worker engine, the concurrent batch
["AAAA", "AAAA"] attempts the single distinct candidate twice — `tested`
rises to 2 and the bucket records it twice — because the threaded runner
filters against the dedup set only once, at batch start, so the claim
that each distinct candidate is attempted at most once (with `tested`
increasing by at most 1 per unique candidate) fails in concurrent
mode. -/
theorem c1_counterexample :
    dupEngine.threads > 1
    ∧ (test_batch (fun _ => benignEnv) jitZero ["AAAA", "AAAA"] dupEngine).results.tested = 2
    ∧ (test_batch (fun _ => benignEnv) jitZero ["AAAA", "AAAA"] dupEngine).attempts
      = ["AAAA", "AAAA"]
    ∧ (test_batch (fun _ => benignEnv) jitZero ["AAAA", "AAAA"] dupEngine).results.UNKNOWN
      = ["AAAA", "AAAA"] :=
  ⟨by decide, rfl, rfl, rfl⟩

/-- C3 (amended): a poll message containing "invalid" or "not found" that
matches no earlier rule is classified with the distinct top-level tag
INVALID, the raw message preserved as detail; `_update_results` has no
INVALID branch, so such a candidate increments `tested` and enters the
dedup set but is appended to no bucket of the BatchResult — in
particular not to the UNKNOWN bucket. -/
theorem c3_invalid_distinct_tag :
    (∀ (m aid : String), msgContains m "expired" = false →
      msgContains m "not known in our database" = false →
      (msgContains m "invalid" || msgContains m "not found") = true →
      classify_poll ⟨false, m⟩ aid = (.INVALID, .msg m))
    ∧ (∀ (s : EngineState) (res : BatchResults) (code : String),
      (update_results s res code .INVALID).2 = { res with tested := res.tested + 1 }
      ∧ (update_results s res code .INVALID).1.tested_codes
        = add_tested s.tested_codes code) := by
  constructor
  · intro m aid h1 h2 h3
    simp [classify_poll, h1, h2, h3]
  · intro s res code
    exact ⟨rfl, rfl⟩

/-- C3 witness at the message "code invalid" and a concrete update. -/
theorem c3_invalid_distinct_tag_witness :
    classify_poll ⟨false, "code invalid"⟩ "a" = (.INVALID, .msg "code invalid")
    ∧ (update_results freshEngine empty_results "AAAA" .INVALID).2
      = { empty_results with tested := empty_results.tested + 1 }
    ∧ (update_results freshEngine empty_results "AAAA" .INVALID).1.tested_codes
      = add_tested freshEngine.tested_codes "AAAA" :=
  ⟨c3_invalid_distinct_tag.1 "code invalid" "a" (by decide) (by decide) (by decide),
   (c3_invalid_distinct_tag.2 freshEngine empty_results "AAAA").1,
   (c3_invalid_distinct_tag.2 freshEngine empty_results "AAAA").2⟩

/-- C3 counterexample: a candidate whose poll message is
"This voucher code is invalid" is classified INVALID (not UNKNOWN), and
after the batch the UNKNOWN bucket — like every other bucket — is empty
even though `tested` is 1, so the candidate is not recorded in the
BatchResult under the Unknown bucket as the claim states. -/
theorem c3_counterexample :
    (classify_poll ⟨false, "This voucher code is invalid"⟩ "x1").1 = .INVALID
    ∧ Status.INVALID ≠ Status.UNKNOWN
    ∧ (test_batch_single (fun _ => invalidEnv) jitZero ["AAAA"] freshEngine).results.tested = 1
    ∧ (test_batch_single (fun _ => invalidEnv) jitZero ["AAAA"] freshEngine).results.UNKNOWN = []
    ∧ (test_batch_single (fun _ => invalidEnv) jitZero ["AAAA"] freshEngine).results.SUCCESS = []
    ∧ (test_batch_single (fun _ => invalidEnv) jitZero ["AAAA"] freshEngine).results.EXPIRED = []
    ∧ (test_batch_single (fun _ => invalidEnv) jitZero ["AAAA"] freshEngine).results.USED = []
    ∧ (test_batch_single (fun _ => invalidEnv) jitZero ["AAAA"] freshEngine).results.LIMITED = []
    ∧ (test_batch_single (fun _ => invalidEnv) jitZero ["AAAA"] freshEngine).results.NOTFOUND = [] :=
  ⟨rfl, by decide, rfl, rfl, rfl, rfl, rfl, rfl, rfl⟩

/-- C4 (amended): a RateLimited outcome never aborts or alters the run in
either mode — which candidates are attempted, the tested count, and (in
single-worker mode) the whole dedup bookkeeping are the same whatever
outcomes the attempts produce; every pause of a single-worker run is an
ordinary adaptive delay bounded by the largest base delay over the
thread count plus the jitter bound, so no fixed long cooldown interval
ever occurs; and the throttle flag `rate_limited` is recorded but never
consumed — results, attempts and sleeps are unchanged by its initial
value. In both modes the event is only logged. -/
theorem c4_rate_limit_never_blocks (envOf envOf' : String → NetEnv) (jit : Nat → ℚ)
    (codes : List String) (s : EngineState) (b : Bool) :
    ((test_batch_single envOf jit codes s).attempts
       = (test_batch_single envOf' jit codes s).attempts
     ∧ (test_batch_single envOf jit codes s).results.tested
       = (test_batch_single envOf' jit codes s).results.tested
     ∧ (test_batch_single envOf jit codes s).state.tested_codes
       = (test_batch_single envOf' jit codes s).state.tested_codes
     ∧ (test_batch_threaded envOf jit codes s).attempts
       = (test_batch_threaded envOf' jit codes s).attempts
     ∧ (test_batch_threaded envOf jit codes s).results.tested
       = (test_batch_threaded envOf' jit codes s).results.tested)
    ∧ (1 ≤ s.threads → (∀ n, 0 ≤ jit n ∧ jit n ≤ 3/10) →
       ∀ d ∈ (test_batch_single envOf jit codes s).sleeps,
         d ≤ 2 / (s.threads : ℚ) + 3/10)
    ∧ ((test_batch_single envOf jit codes { s with rate_limited := b }).results
       = (test_batch_single envOf jit codes s).results
      ∧ (test_batch_single envOf jit codes { s with rate_limited := b }).attempts
       = (test_batch_single envOf jit codes s).attempts
      ∧ (test_batch_single envOf jit codes { s with rate_limited := b }).sleeps
       = (test_batch_single envOf jit codes s).sleeps) := by
  refine ⟨⟨?_, ?_, ?_, ?_, ?_⟩, ?_, ?_⟩
  · rw [test_batch_single, test_batch_single,
      (run_single_spec envOf jit codes ⟨s, empty_results, [], []⟩).1,
      (run_single_spec envOf' jit codes ⟨s, empty_results, [], []⟩).1]
  · rw [test_batch_single, test_batch_single,
      (run_single_spec envOf jit codes ⟨s, empty_results, [], []⟩).2.2.1,
      (run_single_spec envOf' jit codes ⟨s, empty_results, [], []⟩).2.2.1]
  · rw [test_batch_single, test_batch_single,
      (run_single_spec envOf jit codes ⟨s, empty_results, [], []⟩).2.1,
      (run_single_spec envOf' jit codes ⟨s, empty_results, [], []⟩).2.1]
  · rw [test_batch_threaded, test_batch_threaded,
      (run_threaded_spec envOf jit (codes.filter (fun c => decide (c ∉ s.tested_codes)))
        ⟨s, empty_results, [], []⟩).1,
      (run_threaded_spec envOf' jit (codes.filter (fun c => decide (c ∉ s.tested_codes)))
        ⟨s, empty_results, [], []⟩).1]
  · rw [test_batch_threaded, test_batch_threaded,
      (run_threaded_spec envOf jit (codes.filter (fun c => decide (c ∉ s.tested_codes)))
        ⟨s, empty_results, [], []⟩).2.1,
      (run_threaded_spec envOf' jit (codes.filter (fun c => decide (c ∉ s.tested_codes)))
        ⟨s, empty_results, [], []⟩).2.1]
  · intro hth hjit d hd
    rw [test_batch_single] at hd
    rcases run_single_sleeps_bound envOf jit hjit codes ⟨s, empty_results, [], []⟩ hth d hd
      with h | h
    · simp at h
    · exact h
  · obtain ⟨th, rc, rl, tc⟩ := s
    have hb := run_single_flag_blind envOf jit codes th rc b rl tc empty_results [] []
    exact ⟨hb.1, hb.2.1, hb.2.2.1⟩

/-- C4 witness: on a fresh single-worker engine whose only attempt is
rate limited, the one recorded sleep obeys the adaptive-delay bound. -/
theorem c4_rate_limit_never_blocks_witness :
    adaptive_delay_value 1 1 (jitZero 1) ≤ 2 / ((freshEngine.threads : Nat) : ℚ) + 3/10 :=
  (c4_rate_limit_never_blocks envRLfirst envRLfirst jitZero ["AAAA"] freshEngine false).2.1
    (by decide) (fun _ => ⟨le_refl 0, by norm_num [jitZero]⟩)
    (adaptive_delay_value 1 1 (jitZero 1)) (List.mem_singleton.mpr rfl)

/-- C4 counterexample: a single-worker run whose first candidate comes
back RateLimited sleeps exactly the same amounts as the control run
where that candidate merely fails with a plain 500, each sleep being the
ordinary adaptive delay 1/2 — there is no cooldown sleep of a fixed long
interval before the next attempt, which proceeds normally (both codes
attempted, tested = 2) while the throttle flag is merely recorded. -/
theorem c4_counterexample :
    (test_voucher (envRLfirst "AAAA")).status = .RATE_LIMITED
    ∧ (test_batch_single envRLfirst jitZero ["AAAA", "BBBB"] freshEngine).sleeps
      = (test_batch_single envERRfirst jitZero ["AAAA", "BBBB"] freshEngine).sleeps
    ∧ (test_batch_single envRLfirst jitZero ["AAAA", "BBBB"] freshEngine).sleeps
      = [adaptive_delay_value 1 1 0, adaptive_delay_value 1 2 0, adaptive_delay_value 1 3 0]
    ∧ adaptive_delay_value 1 1 0 = 1/2
    ∧ adaptive_delay_value 1 2 0 = 1/2
    ∧ adaptive_delay_value 1 3 0 = 1/2
    ∧ (test_batch_single envRLfirst jitZero ["AAAA", "BBBB"] freshEngine).attempts
      = ["AAAA", "BBBB"]
    ∧ (test_batch_single envRLfirst jitZero ["AAAA", "BBBB"] freshEngine).results.tested = 2
    ∧ (test_batch_single envRLfirst jitZero ["AAAA", "BBBB"] freshEngine).state.rate_limited
      = true :=
  ⟨rfl, rfl, rfl,
   by norm_num [adaptive_delay_value, base_delay],
   by norm_num [adaptive_delay_value, base_delay],
   by norm_num [adaptive_delay_value, base_delay],
   rfl, rfl, rfl⟩

/-- C5 (amended): after a single-worker batch, each of the six stored
outcome tags maps to the ordered list of attempted candidates that
produced that tag, and `tested` equals the number of candidates
attempted — which exceeds the number recorded in the mapping whenever an
attempt ends in INVALID, RATE_LIMITED, NO_RESPONSE, ERROR or EXCEPTION,
since those statuses increment `tested` without entering any bucket. -/
theorem c5_single_batch_accounting (envOf : String → NetEnv) (jit : Nat → ℚ)
    (codes : List String) (s : EngineState) :
    (test_batch_single envOf jit codes s).results.tested
      = (test_batch_single envOf jit codes s).attempts.length
    ∧ (test_batch_single envOf jit codes s).results.SUCCESS
      = (test_batch_single envOf jit codes s).attempts.filter
          (fun c => decide ((test_voucher (envOf c)).status = .SUCCESS))
    ∧ (test_batch_single envOf jit codes s).results.EXPIRED
      = (test_batch_single envOf jit codes s).attempts.filter
          (fun c => decide ((test_voucher (envOf c)).status = .EXPIRED))
    ∧ (test_batch_single envOf jit codes s).results.USED
      = (test_batch_single envOf jit codes s).attempts.filter
          (fun c => decide ((test_voucher (envOf c)).status = .USED))
    ∧ (test_batch_single envOf jit codes s).results.LIMITED
      = (test_batch_single envOf jit codes s).attempts.filter
          (fun c => decide ((test_voucher (envOf c)).status = .LIMITED))
    ∧ (test_batch_single envOf jit codes s).results.UNKNOWN
      = (test_batch_single envOf jit codes s).attempts.filter
          (fun c => decide ((test_voucher (envOf c)).status = .UNKNOWN))
    ∧ (test_batch_single envOf jit codes s).results.NOTFOUND
      = (test_batch_single envOf jit codes s).attempts.filter
          (fun c => decide ((test_voucher (envOf c)).status = .NOTFOUND)) := by
  obtain ⟨ha, hd, hn, hth, h1, h2, h3, h4, h5, h6⟩ :=
    run_single_spec envOf jit codes ⟨s, empty_results, [], []⟩
  simp only [test_batch_single]
  refine ⟨?_, ?_, ?_, ?_, ?_, ?_, ?_⟩
  · rw [hn, ha]; simp [empty_results]
  · rw [h1, ha]; simp [empty_results]
  · rw [h2, ha]; simp [empty_results]
  · rw [h3, ha]; simp [empty_results]
  · rw [h4, ha]; simp [empty_results]
  · rw [h5, ha]; simp [empty_results]
  · rw [h6, ha]; simp [empty_results]

/-- C5 counterexample: a single-candidate batch whose attempt is answered
with HTTP 429 ends with `tested` = 1 while every bucket of the mapping
is empty, so `tested` does not equal the number of candidates for which
an outcome was recorded in the mapping. -/
theorem c5_counterexample :
    (test_batch_single (fun _ => rlEnv) jitZero ["BBBB"] freshEngine).results.tested = 1
    ∧ (test_batch_single (fun _ => rlEnv) jitZero ["BBBB"] freshEngine).results.SUCCESS = []
    ∧ (test_batch_single (fun _ => rlEnv) jitZero ["BBBB"] freshEngine).results.EXPIRED = []
    ∧ (test_batch_single (fun _ => rlEnv) jitZero ["BBBB"] freshEngine).results.USED = []
    ∧ (test_batch_single (fun _ => rlEnv) jitZero ["BBBB"] freshEngine).results.LIMITED = []
    ∧ (test_batch_single (fun _ => rlEnv) jitZero ["BBBB"] freshEngine).results.UNKNOWN = []
    ∧ (test_batch_single (fun _ => rlEnv) jitZero ["BBBB"] freshEngine).results.NOTFOUND = []
    ∧ (test_voucher rlEnv).status = .RATE_LIMITED :=
  ⟨rfl, rfl, rfl, rfl, rfl, rfl, rfl, rfl⟩

/-- C8: every single-candidate attempt returns exactly one
(Outcome, detail) pair — `test_voucher` is total, issuing exactly one
submit POST and at most one poll GET, so no retry occurs inside the
redemption client — and a transport-level exception at any point (the
submit POST raising, the submit body failing to parse, the poll GET
raising, or the poll body failing to parse) is converted by the single
catch-all handler to the EXCEPTION outcome — the spec's NetworkError —
with the error description as detail. -/
theorem c8_single_attempt_catchall (env : NetEnv) (e : String) :
    ((test_voucher env).submits = 1 ∧ (test_voucher env).polls ≤ 1)
    ∧ (env.submit = .error e →
       (test_voucher env).status = .EXCEPTION ∧ (test_voucher env).detail = .msg e)
    ∧ (∀ r, env.submit = .ok r → check_rate_limit r = false → r.status_code = 200 →
       r.json = .error e →
       (test_voucher env).status = .EXCEPTION ∧ (test_voucher env).detail = .msg e)
    ∧ (∀ r j aid, env.submit = .ok r → check_rate_limit r = false →
       r.status_code = 200 → r.json = .ok j → extract_async_id j = some aid →
       aid.data.isEmpty = false → env.poll = .error e →
       (test_voucher env).status = .EXCEPTION ∧ (test_voucher env).detail = .msg e)
    ∧ (∀ r j aid pr, env.submit = .ok r → check_rate_limit r = false →
       r.status_code = 200 → r.json = .ok j → extract_async_id j = some aid →
       aid.data.isEmpty = false → env.poll = .ok pr → pr.status_code = 200 →
       pr.json = .error e →
       (test_voucher env).status = .EXCEPTION ∧ (test_voucher env).detail = .msg e) := by
  obtain ⟨sub, pol⟩ := env
  refine ⟨?_, ?_, ?_, ?_, ?_⟩
  · simp only [test_voucher]
    repeat' split
    all_goals exact ⟨rfl, by simp⟩
  · intro h
    subst h
    exact ⟨rfl, rfl⟩
  · intro r h hcrl h200 hj
    subst h
    constructor <;> simp [test_voucher, hcrl, h200, hj]
  · intro r j aid h hcrl h200 hj hx he hp
    subst h
    subst hp
    constructor <;> simp [test_voucher, hcrl, h200, hj, hx, he]
  · intro r j aid pr h hcrl h200 hj hx he hp hps hpj
    subst h
    subst hp
    constructor <;> simp [test_voucher, hcrl, h200, hj, hx, he, hps, hpj]

/-- C8 witness: a submit POST that raises with description "timeout". -/
theorem c8_single_attempt_catchall_witness :
    (test_voucher timeoutEnv).submits = 1
    ∧ (test_voucher timeoutEnv).status = .EXCEPTION
    ∧ (test_voucher timeoutEnv).detail = .msg "timeout" :=
  ⟨(c8_single_attempt_catchall timeoutEnv "timeout").1.1,
   ((c8_single_attempt_catchall timeoutEnv "timeout").2.1 rfl).1,
   ((c8_single_attempt_catchall timeoutEnv "timeout").2.1 rfl).2⟩

/-- C9 (amended): during the submit phase, a 429 status, a rate-limit
remaining header below 5, or a 403 (or a response carrying the cf-ray
marker, whatever its status) whose body carries the challenge marker, is
classified RATE_LIMITED immediately with no poll GET; a non-200 submit
status on which `check_rate_limit` fires none of its rules yields ERROR
— the spec's NetworkError — with the status code as detail, again with
no poll GET. -/
theorem c9_submit_rate_limit_rules (env : NetEnv) (r : SubmitResponse)
    (hr : env.submit = .ok r) :
    ((r.status_code = 429
      ∨ (∃ n, r.rate_limit_remaining = some n ∧ n < 5)
      ∨ ((r.status_code = 403 ∨ r.has_cf_ray = true)
         ∧ msgContains r.text "challenge" = true)) →
     (test_voucher env).status = .RATE_LIMITED ∧ (test_voucher env).polls = 0)
    ∧ (check_rate_limit r = false → r.status_code ≠ 200 →
       (test_voucher env).status = .ERROR
       ∧ (test_voucher env).detail = .statusCode r.status_code
       ∧ (test_voucher env).polls = 0) := by
  constructor
  · intro h
    have hc : check_rate_limit r = true := by
      rcases h with h429 | ⟨n, hn, hlt⟩ | ⟨hs, hch⟩
      · simp [check_rate_limit, h429]
      · by_cases h429 : r.status_code = 429
        · simp [check_rate_limit, h429]
        · simp [check_rate_limit, h429, hn, hlt]
      · by_cases h429 : r.status_code = 429
        · simp [check_rate_limit, h429]
        · by_cases hrem : (match r.rate_limit_remaining with
            | some n => decide (n < 5)
            | Option.none => false) = true
          · simp only [check_rate_limit]
            rw [if_neg h429, if_pos hrem]
          · simp only [check_rate_limit]
            rw [if_neg h429, if_neg hrem, if_pos]
            rcases hs with h403 | hcf
            · simp [h403, hch]
            · simp [hcf, hch]
    constructor <;> simp [test_voucher, hr, hc]
  · intro hc h200
    refine ⟨?_, ?_, ?_⟩ <;> simp [test_voucher, hr, hc, h200]

/-- C9 witness: the three listed triggers at a concrete 429, and a plain
500 with no rate-limit marker. -/
theorem c9_submit_rate_limit_rules_witness :
    ((test_voucher rlEnv).status = .RATE_LIMITED ∧ (test_voucher rlEnv).polls = 0)
    ∧ ((test_voucher errEnv).status = .ERROR
       ∧ (test_voucher errEnv).detail = .statusCode 500
       ∧ (test_voucher errEnv).polls = 0) :=
  ⟨(c9_submit_rate_limit_rules rlEnv
      ⟨429, Option.none, false, "", .ok ⟨Option.none, Option.none⟩⟩ rfl).1 (Or.inl rfl),
   (c9_submit_rate_limit_rules errEnv
      ⟨500, Option.none, false, "server error", .ok ⟨Option.none, Option.none⟩⟩ rfl).2
     (by decide) (by decide)⟩

/-- C9 counterexample: a submit response with status 500 — not 429, not
403, no rate-limit header — but carrying a cf-ray header and a challenge
body is classified RATE_LIMITED, not ERROR with the status code as
detail, so "any other non-200 submit status yields NetworkError with the
status code as detail" fails on this input. -/
theorem c9_counterexample :
    (test_voucher cfEnv).status = .RATE_LIMITED
    ∧ (test_voucher cfEnv).status ≠ .ERROR
    ∧ (test_voucher cfEnv).detail ≠ .statusCode 500
    ∧ cfResp.status_code = 500
    ∧ cfResp.status_code ≠ 429
    ∧ cfResp.status_code ≠ 403
    ∧ cfResp.status_code ≠ 200
    ∧ cfResp.rate_limit_remaining = Option.none
    ∧ cfResp.has_cf_ray = true
    ∧ msgContains cfResp.text "challenge" = true :=
  ⟨rfl, by decide, by decide, rfl, by decide, by decide, by decide, rfl, rfl, by decide⟩

end Tixbuster
